import Mathlib

/-!
Verification of `src/flair/models/word_tagger_model.py` (the `WordTagger`
adapter) against its natural-language specification.

The adapter's collaborators live elsewhere in the repository and are not part
of the analysed fragment: the data model (`Sentence`, `Token`, `Label` from
`flair.data`), the tag `Dictionary`, the embedding provider
(`flair.embeddings.TokenEmbeddings`) and the generic classifier base
(`flair.nn.DefaultClassifier`).  Those are modelled here from the spec's
description of their contracts; every definition in the `WordTagger`
namespace below is a direct shallow embedding of the corresponding method of
the source file.  Python's in-place mutation of the sentence batch is made
explicit by state passing: methods that may touch the batch return the
(possibly updated) batch alongside their result.
-/

/-- Modelled from the spec: a `Label` is a (value, confidence) pair attached
to a token under a named label-type (spec §3).  The confidence is a float the
adapter never reads or writes; only the string value is modelled. -/
structure Label where
  value : String
  deriving DecidableEq

/-- Modelled from the spec: a `Token` carries a text span, a mapping from
label-type name to `Label`, and named embedding vectors attached by the
embedding provider (spec §3).  Vector components are numeric data the adapter
never inspects (it only stacks whole vectors), modelled here as integers. -/
structure Token where
  text : String
  labels : List (String × Label)
  embedding_vectors : List (String × List Int)
  deriving DecidableEq

/-- Modelled from the spec: `get_label` looks up the token label under the
given label-type name; a token lacking a requested label degrades to a
default value rather than failing (spec §4.4, §7), the zero tag value being
"O" when the caller omits it.  Calls that omit it in the source pass "O"
explicitly here.  The default `Label` is returned, not attached. -/
def Token.get_label (t : Token) (label_type : String) (zero_tag_value : String) : Label :=
  match t.labels.find? (fun p => p.1 = label_type) with
  | some p => p.2
  | none => ⟨zero_tag_value⟩

/-- Modelled from the spec: reading a vector for each requested embedding
name and concatenating them (spec §6: the names "select which attached
vectors to read back").  A name with no attached vector contributes nothing;
the adapter only ever stacks one such result per token. -/
def Token.get_embedding (t : Token) (names : List String) : List Int :=
  (names.map (fun n =>
    match t.embedding_vectors.find? (fun p => p.1 = n) with
    | some p => p.2
    | none => [])).flatten

/-- Modelled from the spec: a `Sentence` is an ordered sequence of tokens,
owned by the caller and mutated in place when embeddings attach (spec §3). -/
structure Sentence where
  tokens : List Token
  deriving DecidableEq

/-- Modelled from the spec: the tag dictionary is an external bidirectional
string/index mapping, immutable for the model's lifetime (spec §3); the
adapter only stores and serialises it, so only the item list is modelled. -/
structure Dictionary where
  items : List String
  deriving DecidableEq

/-- Modelled from the spec: the embedding provider exposes
`embed(sentences)` (attaching named vectors in place), an ordered sequence
of embedding-source names, and a fixed vector length (spec §6).  `compute`
stands for whatever vector the provider derives for a token. -/
structure TokenEmbeddings where
  name : String
  embedding_length : Nat
  compute : Token → List Int

/-- Attach this provider's vector to one token under the provider's name,
replacing any previous vector under that name; the token's text and labels
are untouched (spec §4.1: embedding "attaches vectors", nothing else). -/
def TokenEmbeddings.embed_token (e : TokenEmbeddings) (t : Token) : Token :=
  { t with embedding_vectors :=
      (t.embedding_vectors.filter (fun p => p.1 ≠ e.name)) ++ [(e.name, e.compute t)] }

/-- Modelled from the spec: `embed(sentences) -> void` mutates the sentences
in place, attaching named vectors to every token (spec §6); state passing
makes the mutated batch the return value. -/
def TokenEmbeddings.embed (e : TokenEmbeddings) (sentences : List Sentence) : List Sentence :=
  sentences.map (fun s => ⟨s.tokens.map e.embed_token⟩)

/-- Modelled from the spec: `names() -> ordered sequence of embedding-source
names` (spec §6). -/
def TokenEmbeddings.get_names (e : TokenEmbeddings) : List String :=
  [e.name]

/-- Modelled from the spec: `torch.stack` on a non-empty list of vectors
yields the 2-D tensor whose row i is the i-th vector; stacking an empty
list raises, modelled as `none`. -/
def torch_stack (vectors : List (List Int)) : Option (List (List Int)) :=
  match vectors with
  | [] => none
  | v :: vs => some (v :: vs)

/-- A value stored under a key of a model state dict: one of the three
adapter-owned fields, or an opaque base-classifier field. -/
inductive StateVal where
  | vEmb (e : TokenEmbeddings)
  | vDict (d : Dictionary)
  | vStr (s : String)
  | vBase (n : Nat)

/-- Python `dict.get`: the value under a key, if present. -/
def dict_get (d : List (String × StateVal)) (k : String) : Option StateVal :=
  (d.find? (fun p => p.1 = k)).map (fun p => p.2)

/-- Python `{**d, k: v}` as a key-value mapping: the binding for `k` becomes
`v`, every other binding of `d` is kept. -/
def dict_set (d : List (String × StateVal)) (k : String) (v : StateVal) :
    List (String × StateVal) :=
  (d.filter (fun p => p.1 ≠ k)) ++ [(k, v)]

/-- The `WordTagger` adapter's state: the three fields its `__init__` stores
(the base classifier keeps `label_dictionary`, the adapter itself keeps
`embeddings` and `tag_type`), plus the base classifier's own contribution to
the persisted state dict, modelled from the spec as an opaque key-value list
(spec §4.5: base-class fields are delegated to the external classifier). -/
structure WordTagger where
  embeddings : TokenEmbeddings
  label_dictionary : Dictionary
  tag_type : String
  base_state : List (String × StateVal)

/-- `WordTagger.__init__`: stores the tag dictionary as the base
classifier's `label_dictionary`, the embedding provider and the tag-type
name (source lines 19-44).  `final_embedding_size` and device placement are
base-classifier and hardware concerns with no observable effect on the
claims modelled here. -/
def WordTagger.init (embeddings : TokenEmbeddings) (tag_dictionary : Dictionary)
    (tag_type : String) (classifierargs : List (String × StateVal)) : WordTagger :=
  { embeddings := embeddings
    label_dictionary := tag_dictionary
    tag_type := tag_type
    base_state := classifierargs }

/-- `label_type` property: returns `self.tag_type` (source lines 87-89). -/
def WordTagger.label_type (m : WordTagger) : String :=
  m.tag_type

/-- `_get_state_dict`: the base classifier's state dict with the three
adapter-owned fields set on top (source lines 46-53). -/
def WordTagger._get_state_dict (m : WordTagger) : List (String × StateVal) :=
  dict_set (dict_set (dict_set m.base_state
    "embeddings" (StateVal.vEmb m.embeddings))
    "tag_dictionary" (StateVal.vDict m.label_dictionary))
    "tag_type" (StateVal.vStr m.tag_type)

/-- `_init_model_with_state_dict` (source lines 55-63): reads the three
adapter-owned fields back with `state.get` and delegates construction.
Modelled from the spec for the base-class part: the model is reconstructed
"from the same three fields plus any base-class fields" (spec §4.5), so the
remaining entries of the state dict become the base state; absence or a
wrongly-typed value of one of the three fields means construction cannot
proceed, modelled as `none`. -/
def WordTagger._init_model_with_state_dict (state : List (String × StateVal)) :
    Option WordTagger :=
  match dict_get state "embeddings", dict_get state "tag_dictionary",
      dict_get state "tag_type" with
  | some (StateVal.vEmb e), some (StateVal.vDict d), some (StateVal.vStr t) =>
      some (WordTagger.init e d t
        (state.filter (fun p =>
          p.1 ≠ "embeddings" ∧ p.1 ≠ "tag_dictionary" ∧ p.1 ≠ "tag_type")))
  | _, _, _ => none

/-- The flattening comprehension
`[token for sentence in sentences for token in sentence]` shared verbatim by
`_prepare_tensors` (line 67) and `_get_labels` (line 76), and reproduced by
the extend-loop of `_get_prediction_data_points` (lines 81-85): for each
sentence in input order, for each token in sentence order. -/
def flatten_tokens (sentences : List Sentence) : List Token :=
  sentences.flatMap (fun s => s.tokens)

/-- `_prepare_tensors` (source lines 65-73): embeds the batch (mutating it,
returned first), flattens the embedded tokens, reads each token's embedding
under the provider's names and stacks the vectors into one tensor. -/
def WordTagger._prepare_tensors (m : WordTagger) (sentences : List Sentence) :
    List Sentence × Option (List (List Int)) :=
  let embedded := m.embeddings.embed sentences
  let all_tokens := flatten_tokens embedded
  let names := m.embeddings.get_names
  let all_embeddings := all_tokens.map (fun tok => tok.get_embedding names)
  (embedded, torch_stack all_embeddings)

/-- `_get_labels` (source lines 75-78): one singleton list per flattened
token, holding the value of `token.get_label(self.label_type)`; the source
call leaves the zero tag value at its default "O". -/
def WordTagger._get_labels (m : WordTagger) (sentences : List Sentence) :
    List (List String) :=
  (flatten_tokens sentences).map (fun tok => [(tok.get_label m.label_type "O").value])

/-- `_get_prediction_data_points` (source lines 80-85): the flattened token
list itself, built by extending an accumulator sentence by sentence. -/
def WordTagger._get_prediction_data_points (_m : WordTagger)
    (sentences : List Sentence) : List Token :=
  flatten_tokens sentences

/-- Modelled from the spec: `get_label` does not modify the token (spec
§4.4: "no side effects on input"; the default label is returned, never
attached).  State-passing form used inside `_print_predictions`. -/
def Token.get_label_run (t : Token) (label_type : String) (zero_tag_value : String) :
    Token × Label :=
  (t, t.get_label label_type zero_tag_value)

/-- One `eval_line` of `_print_predictions` (source lines 96-101): the token
text, the gold label value read under `gold_label_type` with default "O",
and the predicted label value read under the reserved type "predicted" with
default "O", space separated and newline terminated, with the two label
reads threaded through the token state. -/
def token_line_run (tok : Token) (gold_label_type : String) : Token × String :=
  let gold := tok.get_label_run gold_label_type "O"
  let pred := gold.1.get_label_run "predicted" "O"
  (pred.1, tok.text ++ " " ++ gold.2.value ++ " " ++ pred.2.value ++ "\n")

/-- The inner token loop of `_print_predictions` (source lines 95-102): one
line per token of the sentence, in order, threading token state. -/
def sentence_lines_run (tokens : List Token) (gold_label_type : String) :
    List Token × List String :=
  match tokens with
  | [] => ([], [])
  | tok :: rest =>
      let line := token_line_run tok gold_label_type
      let tail := sentence_lines_run rest gold_label_type
      (line.1 :: tail.1, line.2 :: tail.2)

/-- The outer datapoint loop of `_print_predictions` (source lines 93-102):
the token lines of each sentence followed by one blank line. -/
def print_predictions_body (batch : List Sentence) (gold_label_type : String) :
    List Sentence × List String :=
  match batch with
  | [] => ([], [])
  | dp :: rest =>
      let s := sentence_lines_run dp.tokens gold_label_type
      let tail := print_predictions_body rest gold_label_type
      (Sentence.mk s.1 :: tail.1, s.2 ++ ["\n"] ++ tail.2)

/-- `_print_predictions` (source lines 91-103): the rendered lines, with the
batch state threaded through every token access so that absence of side
effects is an explicit property rather than an assumption. -/
def WordTagger._print_predictions (_m : WordTagger) (batch : List Sentence)
    (gold_label_type : String) : List Sentence × List String :=
  print_predictions_body batch gold_label_type

/-- The adapter's operations, for stating that the configuration fields are
constant across any call sequence. -/
inductive AdapterOp where
  | prepareTensors (sentences : List Sentence)
  | getLabels (sentences : List Sentence)
  | getPredictionDataPoints (sentences : List Sentence)
  | printPredictions (batch : List Sentence) (gold_label_type : String)
  | getStateDict

/-- The model state after one adapter operation: every method of the source
reads `self` but assigns no attribute of `self` (the only mutation any of
them performs is on the sentence batch, via `embed`), so each operation
leaves the model unchanged. -/
def WordTagger.applyOp (m : WordTagger) : AdapterOp → WordTagger
  | AdapterOp.prepareTensors _ => m
  | AdapterOp.getLabels _ => m
  | AdapterOp.getPredictionDataPoints _ => m
  | AdapterOp.printPredictions _ _ => m
  | AdapterOp.getStateDict => m

/-! ### Concrete values used by the witnesses -/

def exEmb : TokenEmbeddings :=
  { name := "wv", embedding_length := 1, compute := fun _ => [0] }

def exDict : Dictionary :=
  { items := ["O", "X"] }

def exModel : WordTagger :=
  WordTagger.init exEmb exDict "pos" []

def exTokenX (s : String) : Token :=
  { text := s, labels := [("pos", ⟨"X"⟩), ("predicted", ⟨"X"⟩)], embedding_vectors := [] }

def exTokenBare (s : String) : Token :=
  { text := s, labels := [], embedding_vectors := [] }

def exBatchX : List Sentence :=
  [Sentence.mk [exTokenX "The", exTokenX "cat"], Sentence.mk [exTokenX "sat"]]

/-! ### Helper lemmas -/

theorem applyOp_id (m : WordTagger) (op : AdapterOp) : m.applyOp op = m := by
  cases op <;> rfl

theorem foldl_applyOp_id (m : WordTagger) (ops : List AdapterOp) :
    ops.foldl WordTagger.applyOp m = m := by
  induction ops with
  | nil => rfl
  | cons op rest ih => simp [List.foldl_cons, applyOp_id, ih]

theorem flatten_tokens_nil : flatten_tokens [] = [] := rfl

theorem flatten_tokens_cons (s : Sentence) (rest : List Sentence) :
    flatten_tokens (s :: rest) = s.tokens ++ flatten_tokens rest := by
  simp [flatten_tokens]

theorem flatten_tokens_length (ss : List Sentence) :
    (flatten_tokens ss).length = (ss.map (fun s => s.tokens.length)).sum := by
  induction ss with
  | nil => rfl
  | cons s rest ih => simp [flatten_tokens_cons, ih]

theorem flatten_tokens_embed (e : TokenEmbeddings) (ss : List Sentence) :
    flatten_tokens (e.embed ss) = (flatten_tokens ss).map e.embed_token := by
  induction ss with
  | nil => rfl
  | cons s rest ih =>
      rw [show e.embed (s :: rest) =
            Sentence.mk (s.tokens.map e.embed_token) :: e.embed rest from rfl]
      rw [flatten_tokens_cons, flatten_tokens_cons, List.map_append, ih]

theorem dict_get_set_same (d : List (String × StateVal)) (k : String) (v : StateVal) :
    dict_get (dict_set d k v) k = some v := by
  have hnone : (d.filter (fun p => p.1 ≠ k)).find? (fun p => p.1 = k) = none := by
    rw [List.find?_eq_none]
    intro p hp
    simp only [List.mem_filter] at hp
    simpa using hp.2
  simp [dict_get, dict_set, List.find?_append, hnone]

theorem dict_get_set_ne (d : List (String × StateVal)) (k : String) (v : StateVal)
    (k2 : String) (h : k2 ≠ k) : dict_get (dict_set d k2 v) k = dict_get d k := by
  have hke : k ≠ k2 := fun hh => h hh.symm
  induction d with
  | nil => simp [dict_get, dict_set, List.find?_cons, h]
  | cons a rest ih =>
      by_cases ha2 : a.1 = k2
      · simpa [dict_get, dict_set, List.filter_cons, List.find?_cons, ha2, h, hke] using ih
      · by_cases hak : a.1 = k
        · simp [dict_get, dict_set, List.filter_cons, List.find?_cons, ha2, hak, h, hke]
        · simpa [dict_get, dict_set, List.filter_cons, List.find?_cons, ha2, hak, h, hke] using ih

theorem token_line_run_state (tok : Token) (gt : String) :
    (token_line_run tok gt).1 = tok := rfl

theorem sentence_lines_run_state (tokens : List Token) (gt : String) :
    (sentence_lines_run tokens gt).1 = tokens := by
  induction tokens with
  | nil => rfl
  | cons tok rest ih => simp [sentence_lines_run, token_line_run_state, ih]

theorem token_line_run_eq (tok : Token) (gt : String) :
    (token_line_run tok gt).2 =
      tok.text ++ " " ++ (tok.get_label gt "O").value ++ " " ++
        (tok.get_label "predicted" "O").value ++ "\n" := rfl

theorem sentence_lines_run_snd (tokens : List Token) (gt : String) :
    (sentence_lines_run tokens gt).2 =
      tokens.map (fun tok => (token_line_run tok gt).2) := by
  induction tokens with
  | nil => rfl
  | cons tok rest ih => simp [sentence_lines_run, ih]

theorem print_predictions_body_snd (batch : List Sentence) (gt : String) :
    (print_predictions_body batch gt).2 =
      batch.flatMap (fun dp =>
        dp.tokens.map (fun tok => (token_line_run tok gt).2) ++ ["\n"]) := by
  induction batch with
  | nil => rfl
  | cons dp rest ih => simp [print_predictions_body, sentence_lines_run_snd, ih]

theorem state_dict_gets_embeddings (m : WordTagger) :
    dict_get m._get_state_dict "embeddings" = some (StateVal.vEmb m.embeddings) := by
  unfold WordTagger._get_state_dict
  rw [dict_get_set_ne _ _ _ _ (by decide), dict_get_set_ne _ _ _ _ (by decide),
    dict_get_set_same]

theorem state_dict_gets_tag_dictionary (m : WordTagger) :
    dict_get m._get_state_dict "tag_dictionary" = some (StateVal.vDict m.label_dictionary) := by
  unfold WordTagger._get_state_dict
  rw [dict_get_set_ne _ _ _ _ (by decide), dict_get_set_same]

theorem state_dict_gets_tag_type (m : WordTagger) :
    dict_get m._get_state_dict "tag_type" = some (StateVal.vStr m.tag_type) := by
  unfold WordTagger._get_state_dict
  rw [dict_get_set_same]

theorem print_body_uniform (gt : String) (batch : List Sentence)
    (hX : ∀ tok ∈ flatten_tokens batch,
      (tok.get_label gt "O").value = "X" ∧ (tok.get_label "predicted" "O").value = "X") :
    (print_predictions_body batch gt).2 =
      batch.flatMap (fun dp => dp.tokens.map (fun tok => tok.text ++ " X X\n") ++ ["\n"]) := by
  induction batch with
  | nil => rfl
  | cons dp rest ih =>
      have hdp : ∀ tok ∈ dp.tokens,
          (tok.get_label gt "O").value = "X" ∧ (tok.get_label "predicted" "O").value = "X" :=
        fun tok ht => hX tok (by rw [flatten_tokens_cons]; exact List.mem_append_left _ ht)
      have hrest : ∀ tok ∈ flatten_tokens rest,
          (tok.get_label gt "O").value = "X" ∧ (tok.get_label "predicted" "O").value = "X" :=
        fun tok ht => hX tok (by rw [flatten_tokens_cons]; exact List.mem_append_right _ ht)
      have hline : ∀ tok ∈ dp.tokens, (token_line_run tok gt).2 = tok.text ++ " X X\n" := by
        intro tok ht
        rw [token_line_run_eq, (hdp tok ht).1, (hdp tok ht).2]
        simp [String.append_assoc]
      show (sentence_lines_run dp.tokens gt).2 ++ ["\n"] ++ (print_predictions_body rest gt).2 = _
      rw [sentence_lines_run_snd, List.map_congr_left hline, ih hrest]
      simp

theorem token_line_mem_sentence (tok : Token) (gt : String) (tokens : List Token)
    (ht : tok ∈ tokens) :
    (token_line_run tok gt).2 ∈ (sentence_lines_run tokens gt).2 := by
  induction tokens with
  | nil => cases ht
  | cons a rest ih =>
      rcases List.mem_cons.mp ht with h | h
      · rw [h]
        exact List.mem_cons_self _ _
      · exact List.mem_cons_of_mem _ (ih h)

theorem token_line_mem_body (tok : Token) (gt : String) (batch : List Sentence)
    (ht : tok ∈ flatten_tokens batch) :
    (token_line_run tok gt).2 ∈ (print_predictions_body batch gt).2 := by
  induction batch with
  | nil => cases ht
  | cons dp rest ih =>
      rw [flatten_tokens_cons] at ht
      show (token_line_run tok gt).2 ∈
        (sentence_lines_run dp.tokens gt).2 ++ ["\n"] ++ (print_predictions_body rest gt).2
      rcases List.mem_append.mp ht with h | h
      · exact List.mem_append_left _ (List.mem_append_left _ (token_line_mem_sentence tok gt _ h))
      · exact List.mem_append_right _ (ih h)

/-! ### Claims -/

/-- C1: for every batch of N sentences with token counts c1..cN, the tensor
returned by `_prepare_tensors` has exactly c1+...+cN rows (whenever it
returns at all), the list returned by `_get_labels` and the list returned by
`_get_prediction_data_points` each have exactly c1+...+cN entries, and all
three enumerate tokens in the identical flattened order: for each sentence
in input order, for each token in sentence order; in particular the batch
[["The","cat"],["sat"]] flattens to ["The","cat","sat"]. -/
theorem batch_flattening_aligned (m : WordTagger) (ss : List Sentence) :
    (m._get_labels ss).length = (ss.map (fun s => s.tokens.length)).sum ∧
    (m._get_prediction_data_points ss).length = (ss.map (fun s => s.tokens.length)).sum ∧
    ((m._prepare_tensors ss).2).map List.length =
      (if (ss.map (fun s => s.tokens.length)).sum = 0 then none
        else some ((ss.map (fun s => s.tokens.length)).sum)) ∧
    m._get_prediction_data_points ss = flatten_tokens ss ∧
    (∀ i : Nat, (m._get_labels ss)[i]? =
      ((flatten_tokens ss)[i]?).map (fun tok => [(tok.get_label m.label_type "O").value])) ∧
    (m._prepare_tensors ss).2 =
      torch_stack ((flatten_tokens ss).map
        (fun tok => (m.embeddings.embed_token tok).get_embedding m.embeddings.get_names)) ∧
    (flatten_tokens [Sentence.mk [⟨"The", [], []⟩, ⟨"cat", [], []⟩],
        Sentence.mk [⟨"sat", [], []⟩]]).map Token.text = ["The", "cat", "sat"] := by
  have hord : (m._prepare_tensors ss).2 =
      torch_stack ((flatten_tokens ss).map
        (fun tok => (m.embeddings.embed_token tok).get_embedding m.embeddings.get_names)) := by
    show torch_stack ((flatten_tokens (m.embeddings.embed ss)).map
      (fun tok => tok.get_embedding m.embeddings.get_names)) = _
    rw [flatten_tokens_embed, List.map_map]
    rfl
  refine ⟨?_, ?_, ?_, rfl, ?_, hord, by decide⟩
  · simp [WordTagger._get_labels, flatten_tokens_length]
  · simp [WordTagger._get_prediction_data_points, flatten_tokens_length]
  · rw [hord]
    have hlen : ((flatten_tokens ss).map
        (fun tok => (m.embeddings.embed_token tok).get_embedding m.embeddings.get_names)).length =
        (ss.map (fun s => s.tokens.length)).sum := by
      rw [List.length_map, flatten_tokens_length]
    rcases hcase : (flatten_tokens ss).map
        (fun tok => (m.embeddings.embed_token tok).get_embedding m.embeddings.get_names) with
      _ | ⟨v, vs⟩
    · rw [hcase] at hlen
      simp [torch_stack, ← hlen]
    · rw [hcase] at hlen
      rw [if_neg (by rw [← hlen]; simp)]
      simp [torch_stack, ← hlen]
  · intro i
    simp [WordTagger._get_labels, List.getElem?_map]

/-- C2: during label extraction for training, a token that lacks a gold
label under the configured label-type name contributes the default outside
value "O" to the result of `_get_labels` instead of making the operation
fail. -/
theorem get_labels_missing_defaults_O (m : WordTagger) (ss : List Sentence) (i : Nat)
    (tok : Token) (hidx : (flatten_tokens ss)[i]? = some tok)
    (hno : tok.labels.find? (fun p => p.1 = m.label_type) = none) :
    (m._get_labels ss)[i]? = some ["O"] := by
  simp [WordTagger._get_labels, List.getElem?_map, hidx, Token.get_label, hno]

theorem get_labels_missing_defaults_O_witness :
    (exModel._get_labels [Sentence.mk [exTokenBare "cat"]])[0]? = some ["O"] :=
  get_labels_missing_defaults_O exModel [Sentence.mk [exTokenBare "cat"]] 0
    (exTokenBare "cat") (by decide) (by decide)

/-- C3: rendering a batch in which every token carries gold value "X" under
the requested label-type and predicted value "X" produces, for each sentence
of k tokens, exactly k lines reading `<token text> X X` (newline
terminated), followed by one blank line after each sentence. -/
theorem print_predictions_uniform_X (m : WordTagger) (batch : List Sentence) (gt : String)
    (hX : ∀ tok ∈ flatten_tokens batch,
      (tok.get_label gt "O").value = "X" ∧ (tok.get_label "predicted" "O").value = "X") :
    (m._print_predictions batch gt).2 =
      batch.flatMap (fun dp => dp.tokens.map (fun tok => tok.text ++ " X X\n") ++ ["\n"]) :=
  print_body_uniform gt batch hX

theorem print_predictions_uniform_X_witness :
    (exModel._print_predictions exBatchX "pos").2 =
      exBatchX.flatMap (fun dp => dp.tokens.map (fun tok => tok.text ++ " X X\n") ++ ["\n"]) :=
  print_predictions_uniform_X exModel exBatchX "pos" (by decide)

/-- C4: in the output of `_print_predictions`, a token with no label of the
requested gold label-type renders the gold column as "O", a token with no
"predicted" label renders the predicted column as "O", and a token with
neither still produces a line whose two label columns read "O O"; each such
token line occurs in the rendered output of any batch containing the
token. -/
theorem print_predictions_default_O (gt : String) (tok : Token) :
    ((tok.labels.find? (fun p => p.1 = gt) = none) →
      (token_line_run tok gt).2 =
        tok.text ++ " O " ++ (tok.get_label "predicted" "O").value ++ "\n") ∧
    ((tok.labels.find? (fun p => p.1 = "predicted") = none) →
      (token_line_run tok gt).2 =
        tok.text ++ " " ++ (tok.get_label gt "O").value ++ " O\n") ∧
    ((tok.labels.find? (fun p => p.1 = gt) = none) →
      (tok.labels.find? (fun p => p.1 = "predicted") = none) →
      (token_line_run tok gt).2 = tok.text ++ " O O\n") ∧
    (∀ m : WordTagger, ∀ batch : List Sentence, tok ∈ flatten_tokens batch →
      (token_line_run tok gt).2 ∈ (m._print_predictions batch gt).2) := by
  refine ⟨?_, ?_, ?_, ?_⟩
  · intro hg
    rw [token_line_run_eq, Token.get_label, hg]
    simp [String.append_assoc]
  · intro hp
    rw [token_line_run_eq]
    rw [show tok.get_label "predicted" "O" = ⟨"O"⟩ from by rw [Token.get_label, hp]]
    simp [String.append_assoc]
  · intro hg hp
    rw [token_line_run_eq, Token.get_label, hg]
    rw [show tok.get_label "predicted" "O" = ⟨"O"⟩ from by rw [Token.get_label, hp]]
    simp [String.append_assoc]
  · intro m batch ht
    exact token_line_mem_body tok gt batch ht

theorem print_predictions_default_O_witness :
    (token_line_run (exTokenBare "cat") "pos").2 = (exTokenBare "cat").text ++ " O O\n" ∧
    (token_line_run (exTokenBare "cat") "pos").2 ∈
      (exModel._print_predictions [Sentence.mk [exTokenBare "cat"]] "pos").2 :=
  ⟨(print_predictions_default_O "pos" (exTokenBare "cat")).2.2.1 (by decide) (by decide),
    (print_predictions_default_O "pos" (exTokenBare "cat")).2.2.2 exModel
      [Sentence.mk [exTokenBare "cat"]] (by decide)⟩

/-- C5: `_get_labels` returns a list parallel to the flattened token order:
it has one entry per flattened token, and entry i is the one-element list
holding the string value of the gold label of the i-th flattened token under
the configured label-type name (with the accessor default "O"). -/
theorem get_labels_parallel (m : WordTagger) (ss : List Sentence) :
    (m._get_labels ss).length = (flatten_tokens ss).length ∧
    ∀ i : Nat, (m._get_labels ss)[i]? =
      ((flatten_tokens ss)[i]?).map (fun tok => [(tok.get_label m.label_type "O").value]) := by
  constructor
  · simp [WordTagger._get_labels]
  · intro i
    simp [WordTagger._get_labels, List.getElem?_map]

/-- C6: the state dict produced by `_get_state_dict` holds exactly the three
adapter-owned fields ("embeddings", "tag_dictionary", "tag_type") in
addition to the base classifier fields, and reconstructing a model from the
saved state dict via `_init_model_with_state_dict` and re-extracting a state
dict yields the same embedding provider, tag dictionary, and tag-type
name. -/
theorem state_dict_roundtrip (m : WordTagger) :
    (∀ k : String, (dict_get m._get_state_dict k).isSome ↔
      (k = "embeddings" ∨ k = "tag_dictionary" ∨ k = "tag_type" ∨
        (dict_get m.base_state k).isSome)) ∧
    ∃ m2 : WordTagger,
      WordTagger._init_model_with_state_dict m._get_state_dict = some m2 ∧
      m2.embeddings = m.embeddings ∧ m2.label_dictionary = m.label_dictionary ∧
      m2.tag_type = m.tag_type ∧
      dict_get m2._get_state_dict "embeddings" = dict_get m._get_state_dict "embeddings" ∧
      dict_get m2._get_state_dict "tag_dictionary" =
        dict_get m._get_state_dict "tag_dictionary" ∧
      dict_get m2._get_state_dict "tag_type" = dict_get m._get_state_dict "tag_type" := by
  constructor
  · intro k
    by_cases h1 : k = "embeddings"
    · simp [h1, state_dict_gets_embeddings]
    · by_cases h2 : k = "tag_dictionary"
      · simp [h2, state_dict_gets_tag_dictionary]
      · by_cases h3 : k = "tag_type"
        · simp [h3, state_dict_gets_tag_type]
        · have hbase : dict_get m._get_state_dict k = dict_get m.base_state k := by
            unfold WordTagger._get_state_dict
            rw [dict_get_set_ne _ _ _ _ (fun hh => h3 hh.symm),
              dict_get_set_ne _ _ _ _ (fun hh => h2 hh.symm),
              dict_get_set_ne _ _ _ _ (fun hh => h1 hh.symm)]
          simp [hbase, h1, h2, h3]
  · refine ⟨WordTagger.init m.embeddings m.label_dictionary m.tag_type
      (m._get_state_dict.filter (fun p =>
        p.1 ≠ "embeddings" ∧ p.1 ≠ "tag_dictionary" ∧ p.1 ≠ "tag_type")), ?_, rfl, rfl, rfl,
      ?_, ?_, ?_⟩
    · unfold WordTagger._init_model_with_state_dict
      rw [state_dict_gets_embeddings, state_dict_gets_tag_dictionary, state_dict_gets_tag_type]
    · rw [state_dict_gets_embeddings, state_dict_gets_embeddings]
      rfl
    · rw [state_dict_gets_tag_dictionary, state_dict_gets_tag_dictionary]
      rfl
    · rw [state_dict_gets_tag_type, state_dict_gets_tag_type]
      rfl

/-- C7: a `WordTagger` constructed with tag-type name t answers exactly t
from the `label_type` accessor, unchanged after any sequence of adapter
operations. -/
theorem label_type_constant (e : TokenEmbeddings) (d : Dictionary) (t : String)
    (args : List (String × StateVal)) (ops : List AdapterOp) :
    (ops.foldl WordTagger.applyOp (WordTagger.init e d t args)).label_type = t := by
  rw [foldl_applyOp_id]
  rfl

/-- C8: `_print_predictions` has no side effects on its input batch: the
threaded batch state after the call equals the input batch, every sentence,
token and attached label included; the only output is the list of lines. -/
theorem print_predictions_no_side_effects (m : WordTagger) (batch : List Sentence)
    (gt : String) : (m._print_predictions batch gt).1 = batch := by
  show (print_predictions_body batch gt).1 = batch
  induction batch with
  | nil => rfl
  | cons dp rest ih =>
      show Sentence.mk (sentence_lines_run dp.tokens gt).1 :: (print_predictions_body rest gt).1
        = dp :: rest
      rw [sentence_lines_run_state, ih]

/-- C9: on a batch with zero tokens in total, `_get_labels` and
`_get_prediction_data_points` return the empty list, while
`_prepare_tensors` fails (stacking an empty list of embeddings raises,
modelled as `none`) rather than returning a 0-row tensor. -/
theorem empty_batch_no_tensor (m : WordTagger) (ss : List Sentence)
    (hz : (ss.map (fun s => s.tokens.length)).sum = 0) :
    m._get_labels ss = [] ∧ m._get_prediction_data_points ss = [] ∧
      (m._prepare_tensors ss).2 = none := by
  have hflat : flatten_tokens ss = [] := by
    have hlen := flatten_tokens_length ss
    rw [hz] at hlen
    exact List.length_eq_zero.mp hlen
  have hflat2 : flatten_tokens (m.embeddings.embed ss) = [] := by
    rw [flatten_tokens_embed, hflat]
    rfl
  refine ⟨?_, ?_, ?_⟩
  · simp [WordTagger._get_labels, hflat]
  · simp [WordTagger._get_prediction_data_points, hflat]
  · show torch_stack ((flatten_tokens (m.embeddings.embed ss)).map
      (fun tok => tok.get_embedding m.embeddings.get_names)) = none
    rw [hflat2]
    rfl

theorem empty_batch_no_tensor_witness :
    exModel._get_labels [Sentence.mk []] = [] ∧
    exModel._get_prediction_data_points [Sentence.mk []] = [] ∧
    (exModel._prepare_tensors [Sentence.mk []]).2 = none :=
  empty_batch_no_tensor exModel [Sentence.mk []] (by decide)

/-- C10: the tag dictionary passed at construction is stored as the base
classifier `label_dictionary` field, every adapter operation preserves that
identity, the "tag_dictionary" entry persisted by `_get_state_dict` is
exactly this `label_dictionary`, and `_get_labels` reads gold labels under
exactly the string returned by the `label_type` accessor. -/
theorem label_dictionary_identity (e : TokenEmbeddings) (d : Dictionary) (t : String)
    (args : List (String × StateVal)) (ops : List AdapterOp) (m : WordTagger)
    (ss : List Sentence) :
    (WordTagger.init e d t args).label_dictionary = d ∧
    (ops.foldl WordTagger.applyOp (WordTagger.init e d t args)).label_dictionary = d ∧
    dict_get m._get_state_dict "tag_dictionary" = some (StateVal.vDict m.label_dictionary) ∧
    m._get_labels ss =
      (flatten_tokens ss).map (fun tok => [(tok.get_label m.label_type "O").value]) := by
  refine ⟨?_, ?_, state_dict_gets_tag_dictionary m, rfl⟩
  · rfl
  · rw [foldl_applyOp_id]
    rfl
